import Mathlib

/-!
# aws-health-notifier: the notification pipeline of `cmd/aws-health-notifier/main.go`

A shallow embedding of `sendNotification` (main.go:36-134).  The function talks to
collaborators that live outside the file (`encoding/json`, `pkg/awshealth`,
`internal/aws/session`, `internal/aws/ssm`, the AWS Health client and the Slack
webhook client).  Each of them is a field of `Env`; a run of `sendNotification`
is a pure function of the environment, the options and the inbound event, and it
returns everything an observer can see: the log lines written, the collaborator
calls made (in order), the message that was built (if any) and how the run ended.
-/

namespace AwsHealthNotifier

/-! ## Data model -/

/-- Command line options, `Options` (main.go:21-31). -/
structure Options where
  Region : String
  AWSHealthRegion : String
  DoNotSendMessage : Bool
  Profile : String
  SlackChannel : String
  SlackEmoji : String
  SSMSlackWebhookURL : String
deriving DecidableEq, Repr

/-- The inbound `events.CloudWatchEvent`; `sendNotification` reads only `Detail`. -/
structure CloudWatchEvent where
  Detail : String
deriving DecidableEq, Repr

/-- One entry of `awshealth.Event.Description`; main.go reads only `Latest`. -/
structure EventDescription where
  Latest : String
deriving DecidableEq, Repr

/-- The `awshealth.Event` value (declared in `pkg/awshealth`), with the fields that
main.go reads. -/
structure Event where
  EventARN : String
  Service : String
  EventTypeCode : String
  Description : List EventDescription
deriving DecidableEq, Repr

/-- The `health.AffectedEntity` record of the AWS SDK.  Both fields are `*string`
in Go, so each is optional: `none` is the nil pointer. -/
structure AffectedEntity where
  AwsAccountId : Option String
  EntityValue : Option String
deriving DecidableEq, Repr

/-- The `health.DescribeAffectedEntitiesOutput` record.  `Entities` is a
`[]*AffectedEntity`: a list of pointers, `none` being nil. -/
structure DescribeAffectedEntitiesOutput where
  Entities : List (Option AffectedEntity)
deriving DecidableEq, Repr

/-- A `slackhook.Field`. -/
structure Field where
  Title : String
  Value : String
  Short : Bool
deriving DecidableEq, Repr

/-- A `slackhook.Attachment`, with the fields that main.go sets (the others keep
their zero value). -/
structure Attachment where
  Title : String
  TitleLink : String
  Color : String
  Fields : List Field
deriving DecidableEq, Repr

/-- A `slackhook.Message`, with the fields that main.go sets. -/
structure Message where
  Channel : String
  IconEmoji : String
  Attachments : List Attachment
deriving DecidableEq, Repr

/-- The method `(*slackhook.Message).AddAttachment`: append to `Attachments`. -/
def Message.AddAttachment (m : Message) (a : Attachment) : Message :=
  { m with Attachments := m.Attachments ++ [a] }

/-- A session handle returned by `session.MustMakeSession`. -/
structure Session where
  handle : Nat
deriving DecidableEq, Repr

/-! ## Observable effects -/

/-- Log levels used by main.go. -/
inductive Level
  | info
  | error
  | fatal
deriving DecidableEq, Repr

/-- One log line.  `zap` is a line of the structured `logger` with its message and
its key/value fields (`zap.Error err` is the field `error`); `std` is a line of
the standard library `log` package. -/
inductive LogEntry
  | zap (level : Level) (msg : String) (fields : List (String × String))
  | std (msg : String)
deriving DecidableEq, Repr

/-- A call to a collaborator, with its arguments. -/
inductive Call
  | mustMakeSession (region : String) (profile : String)
  | decryptValue (session : Session) (name : String)
  | describeAffectedEntities (session : Session) (eventArns : List String)
  | slackSend (webhookURL : String) (message : Message)
deriving DecidableEq, Repr

/-- Runtime panics that `sendNotification` can raise. -/
inductive Panic
  | mustMakeSession
  | indexOutOfRange
  | nilDereference
deriving DecidableEq, Repr

/-- How a run of `sendNotification` ends: it returns, it exits the process through
`logger.Fatal` / `log.Fatal` (both call `os.Exit(1)`), or it panics. -/
inductive Exit
  | returned
  | fatal
  | panicked (p : Panic)
deriving DecidableEq, Repr

/-- Everything observable about one run. -/
structure Run where
  log : List LogEntry
  trace : List Call
  message : Option Message
  exit : Exit
deriving DecidableEq, Repr

/-- The collaborators of `sendNotification`.
* `unmarshal` is `json.Unmarshal` into a fresh `awshealth.Event`: the error (if
  any) and the value left in the target variable;
* `healthEventURL` and `personalHealthDashboardURL` are the method
  `HealthEventURL` and the constant `PersonalHealthDashboardURL` of `pkg/awshealth`;
* `mustMakeSession` is `session.MustMakeSession`, `none` when it panics;
* `decryptValue` is `ssm.DecryptValue`;
* `describeAffectedEntities` is the AWS Health query, given the session the
  client was built from and the `EventArns` of the filter;
* `slackSend` is `(*slackhook.Client).Send` of a client built for the given URL,
  returning the error if any. -/
structure Env where
  unmarshal : String → Option String × Event
  healthEventURL : Event → String
  personalHealthDashboardURL : String
  mustMakeSession : String → String → Option Session
  decryptValue : Session → String → Except String String
  describeAffectedEntities : Session → List String → Except String DescribeAffectedEntitiesOutput
  slackSend : String → Message → Option String

/-! ## The pipeline -/

/-- The function `sendNotification` (main.go:36-134). -/
def sendNotification (env : Env) (options : Options) (event : CloudWatchEvent) : Run :=
  -- main.go:37-41: decode, log a failure, and go on
  let err := (env.unmarshal event.Detail).1
  let healthEvent := (env.unmarshal event.Detail).2
  let log1 : List LogEntry :=
    match err with
    | some e => [LogEntry.zap Level.error "Unable to unmarshal health event" [("error", e)]]
    | none => []
  -- main.go:43
  let eventURL := env.healthEventURL healthEvent
  -- main.go:44
  let trace1 := [Call.mustMakeSession options.Region options.Profile]
  match env.mustMakeSession options.Region options.Profile with
  | none => { log := log1, trace := trace1, message := none, exit := Exit.panicked Panic.mustMakeSession }
  | some awsSession =>
  -- main.go:45-49
  let trace2 := trace1 ++ [Call.decryptValue awsSession options.SSMSlackWebhookURL]
  match env.decryptValue awsSession options.SSMSlackWebhookURL with
  | Except.error e =>
    { log := log1 ++ [LogEntry.zap Level.fatal "failed to decrypt slackWebhookURL" [("error", e)]],
      trace := trace2, message := none, exit := Exit.fatal }
  | Except.ok slackWebhookURL =>
  -- main.go:51-54
  let description :=
    if h : healthEvent.Description.length > 0 then
      (healthEvent.Description.get ⟨0, h⟩).Latest
    else
      "no description found in health check"
  -- main.go:59-60
  let trace3 := trace2 ++ [Call.mustMakeSession options.AWSHealthRegion options.Profile]
  match env.mustMakeSession options.AWSHealthRegion options.Profile with
  | none => { log := log1, trace := trace3, message := none, exit := Exit.panicked Panic.mustMakeSession }
  | some awsSession2 =>
  -- main.go:61-70
  let eventArn := [healthEvent.EventARN]
  let trace4 := trace3 ++ [Call.describeAffectedEntities awsSession2 eventArn]
  match env.describeAffectedEntities awsSession2 eventArn with
  | Except.error e =>
    { log := log1 ++ [LogEntry.std e], trace := trace4, message := none, exit := Exit.fatal }
  | Except.ok healthEventDetails =>
  -- main.go:72-78
  match healthEventDetails.Entities[0]? with
  | none => { log := log1, trace := trace4, message := none, exit := Exit.panicked Panic.indexOutOfRange }
  | some none => { log := log1, trace := trace4, message := none, exit := Exit.panicked Panic.nilDereference }
  | some (some entity0) =>
  match entity0.AwsAccountId with
  | none => { log := log1, trace := trace4, message := none, exit := Exit.panicked Panic.nilDereference }
  | some accountIdValue =>
  let awsAccountId := if accountIdValue ≠ "" then accountIdValue else "N/A"
  match entity0.EntityValue with
  | none => { log := log1, trace := trace4, message := none, exit := Exit.panicked Panic.nilDereference }
  | some entityValueValue =>
  let entityValue := if entityValueValue ≠ "" then entityValueValue else "N/A"
  -- main.go:80-81
  let log2 := log1 ++
    [LogEntry.zap Level.info "AWS Account ID" [("aws-account-id", awsAccountId)],
     LogEntry.zap Level.info "Entity Value" [("entity-value", entityValue)]]
  -- main.go:83-116
  let attachment : Attachment :=
    { Title := "AWS Health Notification",
      TitleLink := env.personalHealthDashboardURL,
      Color := "danger",
      Fields :=
        [ { Title := "Service", Value := healthEvent.Service, Short := false },
          { Title := "Description", Value := description, Short := false },
          { Title := "EventTypeCode", Value := healthEvent.EventTypeCode, Short := false },
          { Title := "Link", Value := eventURL, Short := false },
          { Title := "AWS Account ID", Value := awsAccountId, Short := false },
          { Title := "Entity Value", Value := entityValue, Short := false } ] }
  -- main.go:118-122
  let message : Message :=
    Message.AddAttachment
      { Channel := options.SlackChannel, IconEmoji := options.SlackEmoji, Attachments := [] }
      attachment
  -- main.go:124-133
  if options.DoNotSendMessage = true then
    { log := log2 ++ [LogEntry.zap Level.info "Send message is turned off" []],
      trace := trace4, message := some message, exit := Exit.returned }
  else
    let trace5 := trace4 ++ [Call.slackSend slackWebhookURL message]
    let log3 : List LogEntry :=
      match env.slackSend slackWebhookURL message with
      | some e =>
        log2 ++ [LogEntry.zap Level.error "failed to send slack message"
                  [("error", e), ("slack-channel", options.SlackChannel)]]
      | none => log2
    { log := log3 ++ [LogEntry.zap Level.info "successfully sent slack message"
                        [("slack-channel", options.SlackChannel)]],
      trace := trace5, message := some message, exit := Exit.returned }

/-! ## Observations on a run -/

/-- The call is a webhook delivery (`slack.Send`). -/
def Call.isSlackSend : Call → Bool
  | Call.slackSend _ _ => true
  | _ => false

/-- The value of the first field with the given label, in the first attachment. -/
def Message.fieldValue (m : Message) (label : String) : Option String :=
  match m.Attachments with
  | [] => none
  | a :: _ => (a.Fields.find? (fun f => f.Title == label)).map (fun f => f.Value)

/-- The log line written when delivery is suppressed (main.go:125). -/
def skippedEntry : LogEntry :=
  LogEntry.zap Level.info "Send message is turned off" []

/-- The log line written after `slack.Send` (main.go:132). -/
def sentEntry (options : Options) : LogEntry :=
  LogEntry.zap Level.info "successfully sent slack message" [("slack-channel", options.SlackChannel)]

/-- The log line written when `slack.Send` returns the error `e` (main.go:129-130). -/
def deliveryFailedEntry (options : Options) (e : String) : LogEntry :=
  LogEntry.zap Level.error "failed to send slack message"
    [("error", e), ("slack-channel", options.SlackChannel)]

/-! ## Sample inputs -/

/-- Sample options, sending enabled. -/
def sampleOptions : Options :=
  { Region := "us-west-2", AWSHealthRegion := "us-east-1", DoNotSendMessage := false,
    Profile := "", SlackChannel := "#alerts", SlackEmoji := ":boom:",
    SSMSlackWebhookURL := "slack-webhook-url" }

/-- Sample options with the suppression flag set. -/
def suppressedOptions : Options :=
  { sampleOptions with DoNotSendMessage := true }

/-- The health event of the end-to-end scenario. -/
def sampleEvent : Event :=
  { EventARN := "arn:aws:health:us-west-2::event/X", Service := "EC2",
    EventTypeCode := "AWS_EC2_INSTANCE_RETIREMENT",
    Description := [{ Latest := "Instance retiring" }] }

/-- A health event without any description entry. -/
def eventWithoutDescription : Event :=
  { sampleEvent with Description := [] }

/-- A health event with two description entries whose texts differ. -/
def eventWithTwoDescriptions : Event :=
  { sampleEvent with Description := [{ Latest := "first text" }, { Latest := "second text" }] }

/-- The affected entity of the end-to-end scenario. -/
def sampleEntity : AffectedEntity :=
  { AwsAccountId := some "123456789012", EntityValue := some "i-0abc" }

/-- An environment in which every collaborator succeeds: the payload "ok" decodes to
`ev`, any other payload fails to decode and leaves the zero event, the two
sessions get the handles 1 and 2, and the health query returns `entities`. -/
def sampleEnv (ev : Event) (entities : List (Option AffectedEntity)) : Env :=
  { unmarshal := fun s =>
      if s = "ok" then (none, ev)
      else (some "invalid character",
            { EventARN := "", Service := "", EventTypeCode := "", Description := [] }),
    healthEventURL := fun e => "https://phd.aws.amazon.com/event?arn=" ++ e.EventARN,
    personalHealthDashboardURL := "https://phd.aws.amazon.com/phd/home",
    mustMakeSession := fun region _ =>
      if region = "us-east-1" then some { handle := 2 } else some { handle := 1 },
    decryptValue := fun _ _ => Except.ok "https://hooks.slack.example/T0",
    describeAffectedEntities := fun _ _ => Except.ok { Entities := entities },
    slackSend := fun _ _ => none }

/-- The sample environment with a webhook that rejects every message. -/
def failingSendEnv (ev : Event) (entities : List (Option AffectedEntity)) : Env :=
  { sampleEnv ev entities with slackSend := fun _ _ => some "503 Service Unavailable" }

/-- The sample environment with a health query that fails. -/
def failingQueryEnv (ev : Event) : Env :=
  { sampleEnv ev [] with describeAffectedEntities := fun _ _ => Except.error "AccessDenied" }

/-- The message of the end-to-end scenario, for a given description text, account
id and entity value. -/
def sampleMessage (description accountId entityValue : String) : Message :=
  { Channel := "#alerts", IconEmoji := ":boom:",
    Attachments :=
      [ { Title := "AWS Health Notification",
          TitleLink := "https://phd.aws.amazon.com/phd/home",
          Color := "danger",
          Fields :=
            [ { Title := "Service", Value := "EC2", Short := false },
              { Title := "Description", Value := description, Short := false },
              { Title := "EventTypeCode", Value := "AWS_EC2_INSTANCE_RETIREMENT", Short := false },
              { Title := "Link",
                Value := "https://phd.aws.amazon.com/event?arn=arn:aws:health:us-west-2::event/X",
                Short := false },
              { Title := "AWS Account ID", Value := accountId, Short := false },
              { Title := "Entity Value", Value := entityValue, Short := false } ] } ] }

/-- The message built from the zero-valued health event. -/
def zeroEventMessage : Message :=
  { Channel := "#alerts", IconEmoji := ":boom:",
    Attachments :=
      [ { Title := "AWS Health Notification",
          TitleLink := "https://phd.aws.amazon.com/phd/home",
          Color := "danger",
          Fields :=
            [ { Title := "Service", Value := "", Short := false },
              { Title := "Description", Value := "no description found in health check",
                Short := false },
              { Title := "EventTypeCode", Value := "", Short := false },
              { Title := "Link", Value := "https://phd.aws.amazon.com/event?arn=", Short := false },
              { Title := "AWS Account ID", Value := "123456789012", Short := false },
              { Title := "Entity Value", Value := "i-0abc", Short := false } ] } ] }

/-! ## Structure of a run -/

/-- Whenever `sendNotification` builds a message, both sessions were made, the
secret was read, the health query succeeded and its first entity carries both
fields; the message is then fully determined by these values. -/
theorem sendNotification_message_inv (env : Env) (options : Options) (event : CloudWatchEvent)
    (m : Message) (hbuilt : (sendNotification env options event).message = some m) :
    ∃ s1 url s2 out entity a v,
      env.mustMakeSession options.Region options.Profile = some s1 ∧
      env.decryptValue s1 options.SSMSlackWebhookURL = Except.ok url ∧
      env.mustMakeSession options.AWSHealthRegion options.Profile = some s2 ∧
      env.describeAffectedEntities s2 [(env.unmarshal event.Detail).2.EventARN] = Except.ok out ∧
      out.Entities[0]? = some (some entity) ∧
      entity.AwsAccountId = some a ∧
      entity.EntityValue = some v ∧
      m = { Channel := options.SlackChannel, IconEmoji := options.SlackEmoji,
            Attachments :=
              [ { Title := "AWS Health Notification",
                  TitleLink := env.personalHealthDashboardURL,
                  Color := "danger",
                  Fields :=
                    [ { Title := "Service", Value := (env.unmarshal event.Detail).2.Service, Short := false },
                      { Title := "Description",
                        Value :=
                          if h : (env.unmarshal event.Detail).2.Description.length > 0 then
                            ((env.unmarshal event.Detail).2.Description.get ⟨0, h⟩).Latest
                          else "no description found in health check",
                        Short := false },
                      { Title := "EventTypeCode", Value := (env.unmarshal event.Detail).2.EventTypeCode,
                        Short := false },
                      { Title := "Link", Value := env.healthEventURL (env.unmarshal event.Detail).2,
                        Short := false },
                      { Title := "AWS Account ID", Value := if a ≠ "" then a else "N/A", Short := false },
                      { Title := "Entity Value", Value := if v ≠ "" then v else "N/A", Short := false } ] } ] } := by
  unfold sendNotification at hbuilt
  simp only [] at hbuilt
  split at hbuilt
  · simp at hbuilt
  rename_i s1 hs1
  split at hbuilt
  · simp at hbuilt
  rename_i url hurl
  split at hbuilt
  · simp at hbuilt
  rename_i s2 hs2
  split at hbuilt
  · simp at hbuilt
  rename_i out hout
  split at hbuilt
  · simp at hbuilt
  · simp at hbuilt
  rename_i entity hentity
  split at hbuilt
  · simp at hbuilt
  rename_i a ha
  split at hbuilt
  · simp at hbuilt
  rename_i v hv
  refine ⟨s1, url, s2, out, entity, a, v, hs1, hurl, hs2, hout, hentity, ha, hv, ?_⟩
  split at hbuilt
  · simpa [Message.AddAttachment, eq_comm] using hbuilt
  · simpa [Message.AddAttachment, eq_comm] using hbuilt

/-- Whenever the health query succeeds with an empty entity list, the run panics at
`Entities[0]` (main.go:72) and builds no message. -/
theorem sendNotification_of_no_entity (env : Env) (options : Options) (event : CloudWatchEvent)
    (s1 s2 : Session) (url : String) (out : DescribeAffectedEntitiesOutput)
    (hs1 : env.mustMakeSession options.Region options.Profile = some s1)
    (hsecret : env.decryptValue s1 options.SSMSlackWebhookURL = Except.ok url)
    (hs2 : env.mustMakeSession options.AWSHealthRegion options.Profile = some s2)
    (hquery : env.describeAffectedEntities s2 [(env.unmarshal event.Detail).2.EventARN]
      = Except.ok out)
    (hentities : out.Entities = []) :
    (sendNotification env options event).exit = Exit.panicked Panic.indexOutOfRange ∧
    (sendNotification env options event).message = none := by
  constructor <;>
  · unfold sendNotification
    simp only [hs1, hsecret, hs2, hquery, hentities, List.getElem?_nil]

/-- Whenever the first entity returned by the health query has a nil `AwsAccountId`
or a nil `EntityValue`, the run panics at the dereference (main.go:72, 76) and
builds no message. -/
theorem sendNotification_of_nil_field (env : Env) (options : Options) (event : CloudWatchEvent)
    (s1 s2 : Session) (url : String) (out : DescribeAffectedEntitiesOutput)
    (entity : AffectedEntity) (rest : List (Option AffectedEntity))
    (hs1 : env.mustMakeSession options.Region options.Profile = some s1)
    (hsecret : env.decryptValue s1 options.SSMSlackWebhookURL = Except.ok url)
    (hs2 : env.mustMakeSession options.AWSHealthRegion options.Profile = some s2)
    (hquery : env.describeAffectedEntities s2 [(env.unmarshal event.Detail).2.EventARN]
      = Except.ok out)
    (hentities : out.Entities = some entity :: rest)
    (hnil : entity.AwsAccountId = none ∨ entity.EntityValue = none) :
    (sendNotification env options event).exit = Exit.panicked Panic.nilDereference ∧
    (sendNotification env options event).message = none := by
  rcases hnil with hnil | hnil
  · constructor <;>
    · unfold sendNotification
      simp only [hs1, hsecret, hs2, hquery, hentities, hnil, List.getElem?_cons_zero]
  · cases ha : entity.AwsAccountId with
    | none =>
      constructor <;>
      · unfold sendNotification
        simp only [hs1, hsecret, hs2, hquery, hentities, ha, List.getElem?_cons_zero]
    | some a =>
      constructor <;>
      · unfold sendNotification
        simp only [hs1, hsecret, hs2, hquery, hentities, ha, hnil, List.getElem?_cons_zero]

/-- Whenever the run reaches `slack.Send` (main.go:127), its log ends with the line
"successfully sent slack message", whether or not `slack.Send` returned an
error; when it did, the line before is the delivery failure. -/
theorem sendNotification_log_of_send (env : Env) (options : Options) (event : CloudWatchEvent)
    (url : String) (m : Message)
    (hsend : Call.slackSend url m ∈ (sendNotification env options event).trace) :
    (sendNotification env options event).log.getLast? = some (sentEntry options) ∧
    ∀ e, env.slackSend url m = some e →
      deliveryFailedEntry options e ∈ (sendNotification env options event).log := by
  unfold sendNotification at hsend ⊢
  simp only [] at hsend ⊢
  rcases hs1 : env.mustMakeSession options.Region options.Profile with _ | s1
  · simp [hs1] at hsend
  simp only [hs1] at hsend ⊢
  rcases hsecret : env.decryptValue s1 options.SSMSlackWebhookURL with e1 | url1
  · simp [hsecret] at hsend
  simp only [hsecret] at hsend ⊢
  rcases hs2 : env.mustMakeSession options.AWSHealthRegion options.Profile with _ | s2
  · simp [hs2] at hsend
  simp only [hs2] at hsend ⊢
  rcases hquery : env.describeAffectedEntities s2 [(env.unmarshal event.Detail).2.EventARN]
    with e2 | out
  · simp [hquery] at hsend
  simp only [hquery] at hsend ⊢
  rcases hentity : out.Entities[0]? with _ | _ | entity
  · simp [hentity] at hsend
  · simp [hentity] at hsend
  simp only [hentity] at hsend ⊢
  rcases ha : entity.AwsAccountId with _ | a
  · simp [ha] at hsend
  simp only [ha] at hsend ⊢
  rcases hv : entity.EntityValue with _ | v
  · simp [hv] at hsend
  simp only [hv] at hsend ⊢
  by_cases hflag : options.DoNotSendMessage = true
  · simp [hflag] at hsend
  simp only [hflag, if_false, Bool.false_eq_true] at hsend ⊢
  simp only [List.mem_append, List.mem_cons, List.mem_singleton, List.not_mem_nil, or_false,
    false_or, reduceCtorEq, Call.slackSend.injEq] at hsend
  obtain ⟨rfl, rfl⟩ := hsend
  refine ⟨by simp [sentEntry], ?_⟩
  intro e he
  simp only [he, deliveryFailedEntry]
  simp

/-- A decoding error changes a run by one log line only: with the error `e`, the
run is the run of the same environment in which decoding reports no error
(leaving the same value in the event), with the line "Unable to unmarshal health
event" put in front of the log. -/
theorem sendNotification_of_decode_error (env : Env) (options : Options) (event : CloudWatchEvent)
    (e : String) (hdecode : (env.unmarshal event.Detail).1 = some e) :
    sendNotification env options event =
      { sendNotification
          { env with unmarshal := fun s => (none, (env.unmarshal s).2) } options event with
        log := LogEntry.zap Level.error "Unable to unmarshal health event" [("error", e)] ::
          (sendNotification
            { env with unmarshal := fun s => (none, (env.unmarshal s).2) } options event).log } := by
  unfold sendNotification
  simp only [hdecode]
  rcases env.mustMakeSession options.Region options.Profile with _ | s1
  · rfl
  simp only []
  rcases env.decryptValue s1 options.SSMSlackWebhookURL with e1 | url1
  · rfl
  simp only []
  rcases env.mustMakeSession options.AWSHealthRegion options.Profile with _ | s2
  · rfl
  simp only []
  rcases env.describeAffectedEntities s2 [(env.unmarshal event.Detail).2.EventARN] with e2 | out
  · rfl
  simp only []
  rcases out.Entities[0]? with _ | _ | entity
  · rfl
  · rfl
  simp only []
  rcases entity.AwsAccountId with _ | a
  · rfl
  simp only []
  rcases entity.EntityValue with _ | v
  · rfl
  simp only []
  by_cases hflag : options.DoNotSendMessage = true
  · simp only [hflag, if_true]
    rfl
  simp only [hflag, if_false]
  generalize env.slackSend url1 _ = r
  cases r <;> rfl

/-! ## The Description field -/

/-- C8: when the decoded health event has an empty description sequence, the
Description field of every message that `sendNotification` builds is the literal
text "no description found in health check". -/
theorem description_fallback_of_empty (env : Env) (options : Options) (event : CloudWatchEvent)
    (m : Message) (hbuilt : (sendNotification env options event).message = some m)
    (hempty : (env.unmarshal event.Detail).2.Description = []) :
    m.fieldValue "Description" = some "no description found in health check" := by
  obtain ⟨s1, url, s2, out, entity, a, v, -, -, -, -, -, -, -, hm⟩ :=
    sendNotification_message_inv env options event m hbuilt
  subst hm
  simp [Message.fieldValue, List.find?, hempty]

/-- C8 at a concrete input: an event without description entries, one entity. -/
theorem description_fallback_of_empty_witness :
    (sendNotification (sampleEnv eventWithoutDescription [some sampleEntity])
        sampleOptions ⟨"ok"⟩).message
      = some (sampleMessage "no description found in health check" "123456789012" "i-0abc") ∧
    (sampleMessage "no description found in health check" "123456789012" "i-0abc").fieldValue
        "Description" = some "no description found in health check" :=
  ⟨by decide,
   description_fallback_of_empty (sampleEnv eventWithoutDescription [some sampleEntity])
     sampleOptions ⟨"ok"⟩
     (sampleMessage "no description found in health check" "123456789012" "i-0abc")
     (by decide) (by decide)⟩

/-- C1 as stated fails: it is not true that for every run that builds a message
from an event with a non-empty description sequence the Description field is the
text of the last entry.  With the two entries "first text", "second text" the
field is "first text". -/
theorem description_last_entry_counterexample :
    ¬ (∀ (env : Env) (options : Options) (event : CloudWatchEvent) (m : Message),
        (sendNotification env options event).message = some m →
        (env.unmarshal event.Detail).2.Description ≠ [] →
        m.fieldValue "Description" =
          ((env.unmarshal event.Detail).2.Description.getLast?).map (fun d => d.Latest)) := by
  intro h
  have hc := h (sampleEnv eventWithTwoDescriptions [some sampleEntity])
    sampleOptions ⟨"ok"⟩ (sampleMessage "first text" "123456789012" "i-0abc")
    (by decide) (by decide)
  revert hc
  decide

/-- C1 amended: when the decoded health event has a non-empty description
sequence, the Description field of every message that `sendNotification` builds
is the text (`Latest`) of the first entry of the sequence. -/
theorem description_first_entry (env : Env) (options : Options) (event : CloudWatchEvent)
    (m : Message) (d : EventDescription) (rest : List EventDescription)
    (hbuilt : (sendNotification env options event).message = some m)
    (hdesc : (env.unmarshal event.Detail).2.Description = d :: rest) :
    m.fieldValue "Description" = some d.Latest := by
  obtain ⟨s1, url, s2, out, entity, a, v, -, -, -, -, -, -, -, hm⟩ :=
    sendNotification_message_inv env options event m hbuilt
  subst hm
  simp [Message.fieldValue, List.find?, hdesc]

/-- C1 amended, at a concrete input: with the entries "first text", "second text"
the Description field is "first text". -/
theorem description_first_entry_witness :
    (sendNotification (sampleEnv eventWithTwoDescriptions [some sampleEntity])
        sampleOptions ⟨"ok"⟩).message
      = some (sampleMessage "first text" "123456789012" "i-0abc") ∧
    (sampleMessage "first text" "123456789012" "i-0abc").fieldValue "Description"
      = some "first text" :=
  ⟨by decide,
   description_first_entry (sampleEnv eventWithTwoDescriptions [some sampleEntity])
     sampleOptions ⟨"ok"⟩ (sampleMessage "first text" "123456789012" "i-0abc")
     { Latest := "first text" } [{ Latest := "second text" }] (by decide) (by decide)⟩

/-! ## The layout of the message -/

/-- C9: every message that `sendNotification` builds carries exactly one
attachment, of colour "danger", whose field list is the six fields Service,
Description, EventTypeCode, Link, AWS Account ID, Entity Value in this order;
their values are the service of the event, the chosen description, the
eventTypeCode of the event, the computed event URL, and the account id and entity
value of the first entity returned by the health query (each replaced by "N/A"
when it is the empty string). -/
theorem message_layout (env : Env) (options : Options) (event : CloudWatchEvent)
    (m : Message) (hbuilt : (sendNotification env options event).message = some m) :
    ∃ (s2 : Session) (out : DescribeAffectedEntitiesOutput) (entity : AffectedEntity)
      (a v : String),
      env.mustMakeSession options.AWSHealthRegion options.Profile = some s2 ∧
      env.describeAffectedEntities s2 [(env.unmarshal event.Detail).2.EventARN] = Except.ok out ∧
      out.Entities[0]? = some (some entity) ∧
      entity.AwsAccountId = some a ∧
      entity.EntityValue = some v ∧
      m.Attachments =
        [ { Title := "AWS Health Notification",
            TitleLink := env.personalHealthDashboardURL,
            Color := "danger",
            Fields :=
              [ { Title := "Service", Value := (env.unmarshal event.Detail).2.Service, Short := false },
                { Title := "Description",
                  Value :=
                    if h : (env.unmarshal event.Detail).2.Description.length > 0 then
                      ((env.unmarshal event.Detail).2.Description.get ⟨0, h⟩).Latest
                    else "no description found in health check",
                  Short := false },
                { Title := "EventTypeCode", Value := (env.unmarshal event.Detail).2.EventTypeCode,
                  Short := false },
                { Title := "Link", Value := env.healthEventURL (env.unmarshal event.Detail).2,
                  Short := false },
                { Title := "AWS Account ID", Value := if a ≠ "" then a else "N/A", Short := false },
                { Title := "Entity Value", Value := if v ≠ "" then v else "N/A", Short := false } ] } ] := by
  obtain ⟨s1, url, s2, out, entity, a, v, -, -, hs2, hq, hentity, ha, hv, hm⟩ :=
    sendNotification_message_inv env options event m hbuilt
  exact ⟨s2, out, entity, a, v, hs2, hq, hentity, ha, hv, by rw [hm]⟩

/-- C9 at the input of the end-to-end scenario: service "EC2", eventTypeCode
"AWS_EC2_INSTANCE_RETIREMENT", description "Instance retiring", entity
("123456789012", "i-0abc"). -/
theorem message_layout_witness :
    (sendNotification (sampleEnv sampleEvent [some sampleEntity]) sampleOptions ⟨"ok"⟩).message
      = some (sampleMessage "Instance retiring" "123456789012" "i-0abc") ∧
    ∃ (s2 : Session) (out : DescribeAffectedEntitiesOutput) (entity : AffectedEntity)
      (a v : String),
      (sampleEnv sampleEvent [some sampleEntity]).mustMakeSession
        sampleOptions.AWSHealthRegion sampleOptions.Profile = some s2 ∧
      (sampleEnv sampleEvent [some sampleEntity]).describeAffectedEntities s2
        [((sampleEnv sampleEvent [some sampleEntity]).unmarshal "ok").2.EventARN] = Except.ok out ∧
      out.Entities[0]? = some (some entity) ∧
      entity.AwsAccountId = some a ∧
      entity.EntityValue = some v ∧
      (sampleMessage "Instance retiring" "123456789012" "i-0abc").Attachments =
        [ { Title := "AWS Health Notification",
            TitleLink := (sampleEnv sampleEvent [some sampleEntity]).personalHealthDashboardURL,
            Color := "danger",
            Fields :=
              [ { Title := "Service",
                  Value := ((sampleEnv sampleEvent [some sampleEntity]).unmarshal "ok").2.Service,
                  Short := false },
                { Title := "Description",
                  Value :=
                    if h : ((sampleEnv sampleEvent [some sampleEntity]).unmarshal
                              "ok").2.Description.length > 0 then
                      (((sampleEnv sampleEvent [some sampleEntity]).unmarshal
                          "ok").2.Description.get ⟨0, h⟩).Latest
                    else "no description found in health check",
                  Short := false },
                { Title := "EventTypeCode",
                  Value := ((sampleEnv sampleEvent [some sampleEntity]).unmarshal "ok").2.EventTypeCode,
                  Short := false },
                { Title := "Link",
                  Value := (sampleEnv sampleEvent [some sampleEntity]).healthEventURL
                    ((sampleEnv sampleEvent [some sampleEntity]).unmarshal "ok").2,
                  Short := false },
                { Title := "AWS Account ID", Value := if a ≠ "" then a else "N/A", Short := false },
                { Title := "Entity Value", Value := if v ≠ "" then v else "N/A", Short := false } ] } ] :=
  ⟨by decide,
   message_layout (sampleEnv sampleEvent [some sampleEntity]) sampleOptions ⟨"ok"⟩
     (sampleMessage "Instance retiring" "123456789012" "i-0abc") (by decide)⟩

/-! ## Only the first entity is consulted -/

/-- C10: if two health queries both succeed with a non-empty entity list and agree
on the first entity, then, everything else being equal, the two runs of
`sendNotification` are the same: same message, same log, same calls, same end. -/
theorem only_first_entity_consulted (env : Env) (options : Options) (event : CloudWatchEvent)
    (query2 : Session → List String → Except String DescribeAffectedEntitiesOutput)
    (hagree : ∀ s arns, ∃ first rest1 rest2,
      env.describeAffectedEntities s arns = Except.ok { Entities := first :: rest1 } ∧
      query2 s arns = Except.ok { Entities := first :: rest2 }) :
    sendNotification { env with describeAffectedEntities := query2 } options event
      = sendNotification env options event := by
  unfold sendNotification
  simp only []
  cases hs1 : env.mustMakeSession options.Region options.Profile with
  | none => rfl
  | some s1 =>
    simp only []
    cases hsecret : env.decryptValue s1 options.SSMSlackWebhookURL with
    | error e => rfl
    | ok url =>
      simp only []
      cases hs2 : env.mustMakeSession options.AWSHealthRegion options.Profile with
      | none => rfl
      | some s2 =>
        obtain ⟨first, rest1, rest2, h1, h2⟩ :=
          hagree s2 [(env.unmarshal event.Detail).2.EventARN]
        simp only [h1, h2, List.getElem?_cons_zero]

/-- C10 at a concrete input: the entity lists [e] and [e, other, nil]. -/
theorem only_first_entity_consulted_witness :
    sendNotification
        { sampleEnv sampleEvent [some sampleEntity] with
          describeAffectedEntities := fun _ _ =>
            Except.ok { Entities := [some sampleEntity, some ⟨some "999999999999", none⟩, none] } }
        sampleOptions ⟨"ok"⟩
      = sendNotification (sampleEnv sampleEvent [some sampleEntity]) sampleOptions ⟨"ok"⟩ :=
  only_first_entity_consulted (sampleEnv sampleEvent [some sampleEntity]) sampleOptions ⟨"ok"⟩
    (fun _ _ => Except.ok { Entities := [some sampleEntity, some ⟨some "999999999999", none⟩, none] })
    (fun _ _ => ⟨some sampleEntity, [], [some ⟨some "999999999999", none⟩, none], rfl, rfl⟩)

/-! ## Failure of the health query -/

/-- C6: when the health query is made and returns an error, the run ends at
`log.Fatal` (main.go:69) whatever the options are: the process exits right after
the error is printed, no message is built and `slack.Send` is not called. -/
theorem enrichment_error_aborts (env : Env) (options : Options) (event : CloudWatchEvent)
    (s1 s2 : Session) (url e : String)
    (hs1 : env.mustMakeSession options.Region options.Profile = some s1)
    (hsecret : env.decryptValue s1 options.SSMSlackWebhookURL = Except.ok url)
    (hs2 : env.mustMakeSession options.AWSHealthRegion options.Profile = some s2)
    (hquery : env.describeAffectedEntities s2 [(env.unmarshal event.Detail).2.EventARN]
      = Except.error e) :
    (sendNotification env options event).exit = Exit.fatal ∧
    (sendNotification env options event).log.getLast? = some (LogEntry.std e) ∧
    (sendNotification env options event).message = none ∧
    (sendNotification env options event).trace =
      [ Call.mustMakeSession options.Region options.Profile,
        Call.decryptValue s1 options.SSMSlackWebhookURL,
        Call.mustMakeSession options.AWSHealthRegion options.Profile,
        Call.describeAffectedEntities s2 [(env.unmarshal event.Detail).2.EventARN] ] ∧
    ∀ c ∈ (sendNotification env options event).trace, c.isSlackSend = false := by
  have hrun : sendNotification env options event =
      { log := (match (env.unmarshal event.Detail).1 with
                | some e => [LogEntry.zap Level.error "Unable to unmarshal health event" [("error", e)]]
                | none => []) ++ [LogEntry.std e],
        trace :=
          [ Call.mustMakeSession options.Region options.Profile,
            Call.decryptValue s1 options.SSMSlackWebhookURL,
            Call.mustMakeSession options.AWSHealthRegion options.Profile,
            Call.describeAffectedEntities s2 [(env.unmarshal event.Detail).2.EventARN] ],
        message := none,
        exit := Exit.fatal } := by
    unfold sendNotification
    simp only [hs1, hsecret, hs2, hquery, List.cons_append, List.nil_append]
  rw [hrun]
  refine ⟨rfl, ?_, rfl, rfl, ?_⟩
  · simp
  · intro c hc
    simp only [List.mem_cons, List.mem_singleton, List.not_mem_nil, or_false] at hc
    rcases hc with rfl | rfl | rfl | rfl <;> rfl

/-- C6 at a concrete input, with the suppression flag off: the health query
answers "AccessDenied". -/
theorem enrichment_error_aborts_witness :
    (sendNotification (failingQueryEnv sampleEvent) sampleOptions ⟨"ok"⟩).exit = Exit.fatal ∧
    (sendNotification (failingQueryEnv sampleEvent) sampleOptions ⟨"ok"⟩).log.getLast?
      = some (LogEntry.std "AccessDenied") ∧
    (sendNotification (failingQueryEnv sampleEvent) sampleOptions ⟨"ok"⟩).message = none ∧
    (sendNotification (failingQueryEnv sampleEvent) sampleOptions ⟨"ok"⟩).trace =
      [ Call.mustMakeSession sampleOptions.Region sampleOptions.Profile,
        Call.decryptValue { handle := 1 } sampleOptions.SSMSlackWebhookURL,
        Call.mustMakeSession sampleOptions.AWSHealthRegion sampleOptions.Profile,
        Call.describeAffectedEntities { handle := 2 }
          [((failingQueryEnv sampleEvent).unmarshal "ok").2.EventARN] ] ∧
    ∀ c ∈ (sendNotification (failingQueryEnv sampleEvent) sampleOptions ⟨"ok"⟩).trace,
      c.isSlackSend = false :=
  enrichment_error_aborts (failingQueryEnv sampleEvent) sampleOptions ⟨"ok"⟩
    { handle := 1 } { handle := 2 } "https://hooks.slack.example/T0" "AccessDenied"
    rfl rfl rfl rfl

/-! ## The suppression flag -/

/-- No run with the suppression flag set calls `slack.Send`, and none logs the
sent confirmation or a delivery error. -/
theorem suppressed_never_sends (env : Env) (options : Options) (event : CloudWatchEvent)
    (hflag : options.DoNotSendMessage = true) :
    (∀ c ∈ (sendNotification env options event).trace, c.isSlackSend = false) ∧
    sentEntry options ∉ (sendNotification env options event).log ∧
    ∀ e, deliveryFailedEntry options e ∉ (sendNotification env options event).log := by
  unfold sendNotification
  simp only [hflag, if_true]
  repeat' split
  all_goals simp [Call.isSlackSend, sentEntry, deliveryFailedEntry]

/-- The suppression flag on an input whose first entity carries both fields (the
event decodes, both sessions are made, the secret is read, the health query
succeeds with at least one entity, and neither `AwsAccountId` nor `EntityValue`
of the first entity is nil): the run never calls `slack.Send`; it logs the two
enrichment lines and then "Send message is turned off", and neither the sent
confirmation nor a delivery error; it builds the message and returns. -/
theorem suppressed_delivery (env : Env) (options : Options) (event : CloudWatchEvent)
    (s1 s2 : Session) (url : String) (out : DescribeAffectedEntitiesOutput)
    (entity : AffectedEntity) (rest : List (Option AffectedEntity)) (a v : String)
    (hflag : options.DoNotSendMessage = true)
    (hdecode : (env.unmarshal event.Detail).1 = none)
    (hs1 : env.mustMakeSession options.Region options.Profile = some s1)
    (hsecret : env.decryptValue s1 options.SSMSlackWebhookURL = Except.ok url)
    (hs2 : env.mustMakeSession options.AWSHealthRegion options.Profile = some s2)
    (hquery : env.describeAffectedEntities s2 [(env.unmarshal event.Detail).2.EventARN]
      = Except.ok out)
    (hentities : out.Entities = some entity :: rest)
    (ha : entity.AwsAccountId = some a)
    (hv : entity.EntityValue = some v) :
    (∀ c ∈ (sendNotification env options event).trace, c.isSlackSend = false) ∧
    (sendNotification env options event).log =
      [ LogEntry.zap Level.info "AWS Account ID"
          [("aws-account-id", if a ≠ "" then a else "N/A")],
        LogEntry.zap Level.info "Entity Value"
          [("entity-value", if v ≠ "" then v else "N/A")],
        skippedEntry ] ∧
    sentEntry options ∉ (sendNotification env options event).log ∧
    (∀ e, deliveryFailedEntry options e ∉ (sendNotification env options event).log) ∧
    (sendNotification env options event).message.isSome = true ∧
    (sendNotification env options event).exit = Exit.returned := by
  obtain ⟨hsend, hsent, hfailed⟩ := suppressed_never_sends env options event hflag
  refine ⟨hsend, ?_, hsent, hfailed, ?_, ?_⟩
  all_goals
    unfold sendNotification
    simp only [hflag, hdecode, hs1, hsecret, hs2, hquery, hentities, ha, hv,
      List.getElem?_cons_zero, if_true, skippedEntry, List.nil_append, List.cons_append,
      Option.isSome_some]

/-- The suppression flag at the input of the end-to-end scenario. -/
theorem suppressed_delivery_witness :
    (∀ c ∈ (sendNotification (sampleEnv sampleEvent [some sampleEntity]) suppressedOptions
              ⟨"ok"⟩).trace, c.isSlackSend = false) ∧
    (sendNotification (sampleEnv sampleEvent [some sampleEntity]) suppressedOptions ⟨"ok"⟩).log =
      [ LogEntry.zap Level.info "AWS Account ID"
          [("aws-account-id", if "123456789012" ≠ "" then "123456789012" else "N/A")],
        LogEntry.zap Level.info "Entity Value"
          [("entity-value", if "i-0abc" ≠ "" then "i-0abc" else "N/A")],
        skippedEntry ] ∧
    sentEntry suppressedOptions ∉
      (sendNotification (sampleEnv sampleEvent [some sampleEntity]) suppressedOptions ⟨"ok"⟩).log ∧
    (∀ e, deliveryFailedEntry suppressedOptions e ∉
      (sendNotification (sampleEnv sampleEvent [some sampleEntity]) suppressedOptions ⟨"ok"⟩).log) ∧
    (sendNotification (sampleEnv sampleEvent [some sampleEntity]) suppressedOptions
      ⟨"ok"⟩).message.isSome = true ∧
    (sendNotification (sampleEnv sampleEvent [some sampleEntity]) suppressedOptions ⟨"ok"⟩).exit
      = Exit.returned :=
  suppressed_delivery (sampleEnv sampleEvent [some sampleEntity]) suppressedOptions ⟨"ok"⟩
    { handle := 1 } { handle := 2 } "https://hooks.slack.example/T0"
    { Entities := [some sampleEntity] } sampleEntity [] "123456789012" "i-0abc"
    rfl rfl rfl rfl rfl rfl rfl rfl rfl

/-! ## Inputs on which the code departs from the specification -/

/-- C2: the health query succeeds with an empty entity list.  The run panics at
the index expression `Entities[0]` (main.go:72): no message is built and the
delivery stage is not reached. -/
theorem empty_entities_panics :
    sendNotification (sampleEnv sampleEvent []) sampleOptions ⟨"ok"⟩ =
      { log := [],
        trace :=
          [ Call.mustMakeSession "us-west-2" "",
            Call.decryptValue { handle := 1 } "slack-webhook-url",
            Call.mustMakeSession "us-east-1" "",
            Call.describeAffectedEntities { handle := 2 } ["arn:aws:health:us-west-2::event/X"] ],
        message := none,
        exit := Exit.panicked Panic.indexOutOfRange } := by
  decide

/-- C3: the payload does not decode.  The run logs the decoding error and goes on:
it makes both sessions, reads the secret, queries the health service with the
empty ARN of the zero event and posts a message built from the zero event. -/
theorem decode_failure_continues :
    ((sampleEnv sampleEvent [some sampleEntity]).unmarshal "not json").1
      = some "invalid character" ∧
    sendNotification (sampleEnv sampleEvent [some sampleEntity]) sampleOptions ⟨"not json"⟩ =
      { log :=
          [ LogEntry.zap Level.error "Unable to unmarshal health event"
              [("error", "invalid character")],
            LogEntry.zap Level.info "AWS Account ID" [("aws-account-id", "123456789012")],
            LogEntry.zap Level.info "Entity Value" [("entity-value", "i-0abc")],
            LogEntry.zap Level.info "successfully sent slack message"
              [("slack-channel", "#alerts")] ],
        trace :=
          [ Call.mustMakeSession "us-west-2" "",
            Call.decryptValue { handle := 1 } "slack-webhook-url",
            Call.mustMakeSession "us-east-1" "",
            Call.describeAffectedEntities { handle := 2 } [""],
            Call.slackSend "https://hooks.slack.example/T0" zeroEventMessage ],
        message := some zeroEventMessage,
        exit := Exit.returned } := by
  decide

/-- C4: `slack.Send` returns an error.  The run logs the delivery failure with the
channel and then, unconditionally, the line "successfully sent slack message". -/
theorem delivery_failure_also_logs_success :
    (failingSendEnv sampleEvent [some sampleEntity]).slackSend "https://hooks.slack.example/T0"
        (sampleMessage "Instance retiring" "123456789012" "i-0abc")
      = some "503 Service Unavailable" ∧
    (sendNotification (failingSendEnv sampleEvent [some sampleEntity]) sampleOptions ⟨"ok"⟩).log =
      [ LogEntry.zap Level.info "AWS Account ID" [("aws-account-id", "123456789012")],
        LogEntry.zap Level.info "Entity Value" [("entity-value", "i-0abc")],
        deliveryFailedEntry sampleOptions "503 Service Unavailable",
        sentEntry sampleOptions ] ∧
    List.getLast?
        (sendNotification (failingSendEnv sampleEvent [some sampleEntity]) sampleOptions ⟨"ok"⟩).trace
      = some (Call.slackSend "https://hooks.slack.example/T0"
          (sampleMessage "Instance retiring" "123456789012" "i-0abc")) := by
  decide

/-- C5: the first entity has a nil `AwsAccountId` (respectively a nil
`EntityValue`).  The run panics at the dereference (main.go:72, respectively
main.go:76) and builds no message, whereas an empty string gives "N/A". -/
theorem nil_entity_field_panics :
    sendNotification (sampleEnv sampleEvent [some ⟨none, some "i-0abc"⟩]) sampleOptions ⟨"ok"⟩ =
      { log := [],
        trace :=
          [ Call.mustMakeSession "us-west-2" "",
            Call.decryptValue { handle := 1 } "slack-webhook-url",
            Call.mustMakeSession "us-east-1" "",
            Call.describeAffectedEntities { handle := 2 } ["arn:aws:health:us-west-2::event/X"] ],
        message := none,
        exit := Exit.panicked Panic.nilDereference } ∧
    (sendNotification (sampleEnv sampleEvent [some ⟨some "123456789012", none⟩]) sampleOptions
        ⟨"ok"⟩).exit = Exit.panicked Panic.nilDereference ∧
    (sendNotification (sampleEnv sampleEvent [some ⟨some "123456789012", none⟩]) sampleOptions
        ⟨"ok"⟩).message = none ∧
    (sendNotification (sampleEnv sampleEvent [some ⟨some "", some ""⟩]) sampleOptions
        ⟨"ok"⟩).message = some (sampleMessage "Instance retiring" "N/A" "N/A") := by
  decide

/-- C7: the suppression flag is set, the event decodes, the secret is read and the
health query succeeds with one entity, whose `AwsAccountId` is nil.  The run
panics at the dereference (main.go:72) before it reaches the flag (main.go:124):
`slack.Send` is not called, but the line "Send message is turned off" is not
logged either, no message is built and the run does not return. -/
theorem suppressed_nil_field_panics :
    suppressedOptions.DoNotSendMessage = true ∧
    ((sampleEnv sampleEvent [some ⟨none, some "i-0abc"⟩]).unmarshal "ok").1 = none ∧
    sendNotification (sampleEnv sampleEvent [some ⟨none, some "i-0abc"⟩]) suppressedOptions
        ⟨"ok"⟩ =
      { log := [],
        trace :=
          [ Call.mustMakeSession "us-west-2" "",
            Call.decryptValue { handle := 1 } "slack-webhook-url",
            Call.mustMakeSession "us-east-1" "",
            Call.describeAffectedEntities { handle := 2 } ["arn:aws:health:us-west-2::event/X"] ],
        message := none,
        exit := Exit.panicked Panic.nilDereference } ∧
    skippedEntry ∉
      (sendNotification (sampleEnv sampleEvent [some ⟨none, some "i-0abc"⟩]) suppressedOptions
        ⟨"ok"⟩).log := by
  decide

end AwsHealthNotifier
